import Mathlib

set_option maxRecDepth 100000

/-!
Verification of the eligibility and aggregation core of the Project-Analysis
pipeline (files `src/lib/eligibility.py` and `src/pipeline/aggregate.py`),
as a shallow embedding: pandas data frames become lists of records, group-by
becomes key deduplication plus filtering, NaN-able numeric columns become
`Option ℚ`, and fallible pipeline steps return `Except String`.

Modelling conventions shared by all definitions below:
* A pandas timestamp normalised to a local calendar date is a `DateL`
  (year plus ordinal day); `NaT` (the result of a failed
  `pd.to_datetime(..., errors="coerce")`) is `Option.none`.
* pandas `sum`/`mean`/`median`/`quantile` skip NaN, so such statistics are
  computed over the list of present (`some`) values; the value a statistic
  takes on an all-NaN column (NaN in pandas) is modelled by the junk value 0,
  which no theorem relies on.
* pandas `groupby(keys)` over a frame `l` is modelled by the deduplicated
  list of key tuples together with, per key, the sublist of rows carrying
  that key.  Group order differs from pandas (which sorts keys), but every
  statement proved below is order-insensitive.
-/

/-- A local calendar date: the year and an ordinal identifying the day within
the year.  Stands for the `date_local` values of the pipeline. -/
structure DateL where
  year : Int
  ord : Nat
deriving DecidableEq

/-- Date comparison `a ≤ b`, used for the `is_wartime` flag
(`date_local >= wartime_start_ts`). -/
def DateL.le (a b : DateL) : Prop :=
  a.year < b.year ∨ (a.year = b.year ∧ a.ord ≤ b.ord)

instance (a b : DateL) : Decidable (a.le b) := by
  unfold DateL.le
  infer_instance

/-- `groupby` key list: the deduplicated list of key tuples occurring in `l`
(pandas sorts the keys instead; no statement below depends on the order). -/
def groupKeys {α κ : Type} [DecidableEq κ] (l : List α) (key : α → κ) : List κ :=
  (l.map key).dedup

/-- The rows of `l` belonging to group `k`. -/
def groupOf {α κ : Type} [DecidableEq κ] (l : List α) (key : α → κ) (k : κ) : List α :=
  l.filter (fun r => decide (key r = k))

/-! ### Eligibility engine (`src/lib/eligibility.py`) -/

/-- Source constant `MIN_COVERAGE_RATIO = 0.7` (renamed to avoid clash with a
reserved suffix). -/
def minCoverageRate : ℚ := 7 / 10

/-- Source constant `MIN_TOTAL_YEARS = 4`. -/
def minTotalYears : Nat := 4

/-- Source constant `MIN_PREWAR_YEARS = 2`. -/
def minPrewarYears : Nat := 2

/-- Source constant `MIN_WARTIME_YEARS = 2`. -/
def minWartimeYears : Nat := 2

/-- A row of the daily table as read by `eligible_city_year_pairs_from_daily`:
only the columns that function touches (`city_id`, `city_name`, `date_local`,
`available_hours`).  `date_local` is the value after the
`pd.to_datetime(..., errors="coerce")` step: `none` models a
malformed/unparseable date (NaT). -/
structure DailyRow where
  city_id : Int
  city_name : String
  date_local : Option DateL
  available_hours : Nat
deriving DecidableEq

/-- A row as seen by `_compute_good_years`: the daily columns plus the derived
`year` column (null when the date was unparseable). -/
structure CovInput where
  city_id : Int
  city_name : String
  year : Option Int
  date_local : Option DateL
  available_hours : Nat
deriving DecidableEq

/-- The enrichment `df["year"] = df["date_local"].dt.year` performed by
`eligible_city_year_pairs_from_daily` before grouping. -/
def erow (r : DailyRow) : CovInput :=
  ⟨r.city_id, r.city_name, r.date_local.map DateL.year, r.date_local, r.available_hours⟩

/-- A row of the coverage table built by `_compute_good_years`:
per (`city_id`, `city_name`, `year`) group, `days` (distinct non-null dates),
`coverage_days` (rows with `available_hours ≥ 18`) and the coverage ratio
(source column `coverage_ratio`; 0 when `days = 0`, per the `np.where`). -/
structure CoverageRow where
  city_id : Int
  city_name : String
  year : Option Int
  days : Nat
  coverage_days : Nat
  coverage_rate : ℚ
deriving DecidableEq

/-- The (`city_id`, `city_name`, `year`) grouping key of `_compute_good_years`
(`dropna=False`: null years form their own group). -/
def gyKey (r : CovInput) : Int × String × Option Int :=
  (r.city_id, r.city_name, r.year)

/-- One row of the coverage table of `_compute_good_years`, for group key `k`:
`days = ("date_local", "nunique")` (distinct, nulls excluded),
`coverage_days = ("available_hours", lambda s: (s >= 18).sum())`, and
`coverage_ratio = np.where(days > 0, coverage_days / days, 0.0)`. -/
def mkCoverageRow (l : List CovInput) (k : Int × String × Option Int) : CoverageRow :=
  let g := groupOf l gyKey k
  let days := ((g.filterMap (fun r => r.date_local)).dedup).length
  let cd := (g.filter (fun r => decide (18 ≤ r.available_hours))).length
  { city_id := k.1, city_name := k.2.1, year := k.2.2,
    days := days, coverage_days := cd,
    coverage_rate := if 0 < days then (cd : ℚ) / (days : ℚ) else 0 }

/-- The coverage table of `_compute_good_years` before the ratio filter. -/
def coverageRows (l : List CovInput) : List CoverageRow :=
  (groupKeys l gyKey).map (mkCoverageRow l)

/-- The good-year test `coverage_ratio >= MIN_COVERAGE_RATIO`. -/
def goodYearB (c : CoverageRow) : Bool :=
  decide (minCoverageRate ≤ c.coverage_rate)

/-- `_compute_good_years`: the coverage rows whose ratio reaches the 0.7
threshold. -/
def computeGoodYears (l : List CovInput) : List CoverageRow :=
  (coverageRows l).filter goodYearB

/-- Row test `year <= n` with a null year comparing false
(pandas `good_years["year"] <= 2021` on NaN). -/
def yearLeB (r : CoverageRow) (n : Int) : Bool :=
  match r.year with
  | some y => decide (y ≤ n)
  | none => false

/-- Row test `year >= n` with a null year comparing false. -/
def yearGeB (r : CoverageRow) (n : Int) : Bool :=
  match r.year with
  | some y => decide (n ≤ y)
  | none => false

/-- `good_years.groupby("city_id")["year"].nunique()` evaluated at city `c`:
the number of distinct non-null years among the good-year rows of `c`. -/
def totalYears (gy : List CoverageRow) (c : Int) : Nat :=
  (((gy.filter (fun r => decide (r.city_id = c))).filterMap (fun r => r.year)).dedup).length

/-- `good_years[good_years["year"] <= 2021].groupby("city_id")["year"].nunique()`
at city `c`, defaulting to 0 (`prewar_counts.get(city_id, 0)`). -/
def prewarYears (gy : List CoverageRow) (c : Int) : Nat :=
  ((((gy.filter (fun r => yearLeB r 2021)).filter
      (fun r => decide (r.city_id = c))).filterMap (fun r => r.year)).dedup).length

/-- `good_years[good_years["year"] >= 2022].groupby("city_id")["year"].nunique()`
at city `c`, defaulting to 0. -/
def wartimeYears (gy : List CoverageRow) (c : Int) : Nat :=
  ((((gy.filter (fun r => yearGeB r 2022)).filter
      (fun r => decide (r.city_id = c))).filterMap (fun r => r.year)).dedup).length

/-- `_eligible_city_ids`: the cities occurring in the good-year table whose
total / pre-war / wartime distinct good-year counts reach the thresholds. -/
def eligibleCityIds (gy : List CoverageRow) : Finset Int :=
  ((gy.map (fun r => r.city_id)).dedup.filter (fun c =>
    decide (minTotalYears ≤ totalYears gy c) &&
    decide (minPrewarYears ≤ prewarYears gy c) &&
    decide (minWartimeYears ≤ wartimeYears gy c))).toFinset

/-- `eligible_city_year_pairs_from_daily`: empty input short-circuits to the
empty set; otherwise derive `year` from the (possibly unparseable) local date,
compute good years, compute eligible cities, and return the (city, year)
pairs of the good-year rows of eligible cities.  (`int(row.year)` in the
source can only be reached with a non-null year, since a null-year group has
`days = 0` and so never passes the ratio filter; the embedding therefore
extracts the pair through `Option.map`.) -/
def eligibleCityYearPairsFromDaily (daily : List DailyRow) : Finset (Int × Int) :=
  if daily = [] then ∅
  else
    (((computeGoodYears (daily.map erow)).filter
        (fun r => decide (r.city_id ∈ eligibleCityIds (computeGoodYears (daily.map erow))))).filterMap
      (fun r => r.year.map (fun y => (r.city_id, y)))).toFinset

/-- `eligible_city_ids_from_daily`: the first components of the eligible
(city, year) pairs. -/
def eligibleCityIdsFromDaily (daily : List DailyRow) : Finset Int :=
  (eligibleCityYearPairsFromDaily daily).image Prod.fst

/-! ### City distribution rows (`_city_distributions` output schema) -/

/-- A row of the city-distribution table (output of `_city_distributions`,
input of `eligible_city_ids_from_distributions`).  `period` is null on
year-level rows and `year` is null on period-level rows, as produced by the
`pd.concat` of the two granularities.  The admin-code columns and the
`date_local` helper column built and then immediately dropped by
`eligible_city_ids_from_distributions` are not represented, since no code
path reads them. -/
structure DistAgg where
  city_id : Int
  city_name : String
  region_name : String
  period : Option String
  year : Option Int
  days : Nat
  pm25_mean : ℚ
  pm25_median : ℚ
  pm25_p90 : ℚ
  pm25_p10 : ℚ
  exceedance_share : ℚ
  available_hours_mean : ℚ
  days_with_coverage_ge18 : Nat
  aggregation_level : String
deriving DecidableEq

/-- The `aggregation_level == "year"` rows with a non-null year
(`.dropna(subset=["year"])`). -/
def yearLevelRows (t : List DistAgg) : List DistAgg :=
  (t.filter (fun r => decide (r.aggregation_level = "year"))).filter
    (fun r => r.year.isSome)

/-- The normalised coverage rows built by `eligible_city_ids_from_distributions`:
keep `days > 0`, take `coverage_days := days_with_coverage_ge18`, and attach
the recomputed ratio (`np.where(days > 0, coverage_days / days, 0.0)`). -/
def distCoverageRows (t : List DistAgg) : List CoverageRow :=
  ((yearLevelRows t).filter (fun r => decide (0 < r.days))).filterMap
    (fun r => r.year.map (fun y =>
      { city_id := r.city_id, city_name := r.city_name, year := some y,
        days := r.days, coverage_days := r.days_with_coverage_ge18,
        coverage_rate :=
          if 0 < r.days then (r.days_with_coverage_ge18 : ℚ) / (r.days : ℚ) else 0 }))

/-- The good-year rows of the distributions entry point (ratio ≥ 0.7). -/
def distGoodYears (t : List DistAgg) : List CoverageRow :=
  (distCoverageRows t).filter goodYearB

/-- `eligible_city_ids_from_distributions`: empty year-level slice
short-circuits to the empty set; otherwise apply the shared city rule. -/
def eligibleCityIdsFromDistributions (t : List DistAgg) : Finset Int :=
  if yearLevelRows t = [] then ∅ else eligibleCityIds (distGoodYears t)

/-- The per-(city, year) coverage content of a daily table: for every
(city, name, year) group with a non-null year, the tuple
(city_id, year, days, coverage_days).  This is the "semantically equivalent
input" interface of the two eligibility entry points. -/
def coverageTuples (daily : List DailyRow) : Finset (Int × Int × Nat × Nat) :=
  ((coverageRows (daily.map erow)).filterMap
    (fun cr => cr.year.map (fun y => (cr.city_id, y, cr.days, cr.coverage_days)))).toFinset

/-- The per-(city, year) coverage content carried by a distribution table:
for every year-level row with a non-null year, the tuple
(city_id, year, days, days_with_coverage_ge18). -/
def distTuples (t : List DistAgg) : Finset (Int × Int × Nat × Nat) :=
  ((yearLevelRows t).filterMap
    (fun r => r.year.map (fun y => (r.city_id, y, r.days, r.days_with_coverage_ge18)))).toFinset

/-! ### Aggregation engine (`src/pipeline/aggregate.py`) -/

/-- An enriched hourly record as consumed by `_daily_aggregates` and by the
eligibility gate of `aggregate_data`: the grouping keys, the local hour, the
`year` column derived by `_enrich_hourly` from the local timestamp, the pm2.5
value (`none` = NaN) and the precomputed `is_valid` flag.  Columns not read
by any claim (aqi, weekday, season, admin codes, ...) are not represented. -/
structure HourlyRow where
  city_id : Int
  city_name : String
  region_name : String
  date_local : DateL
  hour_local : Nat
  year : Int
  pm25 : Option ℚ
  is_valid : Bool
deriving DecidableEq

/-- A row of the daily aggregate table produced by `_daily_aggregates`
(the aqi, month, weekday, season and iso-week columns, which no claim
touches, are not represented). -/
structure DailyAgg where
  city_id : Int
  city_name : String
  region_name : String
  date_local : DateL
  pm25_mean : ℚ
  pm25_median : ℚ
  pm25_p90 : ℚ
  pm25_p10 : ℚ
  pm25_max : ℚ
  available_hours : Nat
  exceedance_hours : Nat
  exceedance_share : Option ℚ
  year : Int
  period : String
deriving DecidableEq

/-- `valid["exceed"] = valid["pm25"] > pm25_guideline`: NaN compares false. -/
def exceedB (guideline : ℚ) (r : HourlyRow) : Bool :=
  match r.pm25 with
  | some v => decide (guideline < v)
  | none => false

/-- pandas skip-NaN mean of a list of present values (junk 0 on []). -/
def meanQ (l : List ℚ) : ℚ :=
  l.sum / (l.length : ℚ)

/-- Ascending sort of rational values. -/
def sortQ (l : List ℚ) : List ℚ :=
  List.insertionSort (fun a b => a ≤ b) l

/-- pandas `Series.quantile(q)` with the default linear interpolation:
position `q * (n - 1)` between the sorted values (junk 0 on []). -/
def quantileQ (l : List ℚ) (q : ℚ) : ℚ :=
  let s := sortQ l
  if s.length = 0 then 0
  else
    let pos := q * ((s.length : ℚ) - 1)
    let i := pos.floor.toNat
    let a := s.getD i 0
    let b := s.getD (i + 1) a
    a + (pos - (pos.floor : ℚ)) * (b - a)

/-- pandas skip-NaN max (junk 0 on []). -/
def maxQ (l : List ℚ) : ℚ :=
  match l with
  | [] => 0
  | v :: vs => vs.foldl max v

/-- The (`city_id`, `city_name`, `region_name`, `date_local`) grouping key of
`_daily_aggregates`. -/
def dkey (r : HourlyRow) : Int × String × String × DateL :=
  (r.city_id, r.city_name, r.region_name, r.date_local)

/-- `_daily_aggregates`: keep the `is_valid` rows, fail when none remain,
then aggregate per (city, name, region, local date).  `available_hours` uses
the pandas `"size"` aggregation (the number of rows of the group, NaN pm2.5
included); `exceedance_hours` sums the `exceed` flags;
`exceedance_share = np.where(available_hours > 0, .../available_hours, nan)`;
`year` is the year of the group's local date and `period` compares the local
date against the wartime start. -/
def dailyAggregates (hourly : List HourlyRow) (guideline : ℚ) (wartimeStart : DateL) :
    Except String (List DailyAgg) :=
  let valid := hourly.filter (fun r => r.is_valid)
  if valid = [] then Except.error "No valid hourly records available for aggregation"
  else Except.ok ((groupKeys valid dkey).map (fun k =>
    let g := groupOf valid dkey k
    let vals := g.filterMap (fun r => r.pm25)
    let avail := g.length
    let exc := (g.filter (exceedB guideline)).length
    { city_id := k.1, city_name := k.2.1, region_name := k.2.2.1, date_local := k.2.2.2,
      pm25_mean := meanQ vals, pm25_median := quantileQ vals (1 / 2),
      pm25_p90 := quantileQ vals (9 / 10), pm25_p10 := quantileQ vals (1 / 10),
      pm25_max := maxQ vals,
      available_hours := avail, exceedance_hours := exc,
      exceedance_share := if 0 < avail then some ((exc : ℚ) / (avail : ℚ)) else none,
      year := k.2.2.2.year,
      period := if wartimeStart.le k.2.2.2 then "wartime" else "pre_war" }))

/-- The (`city_id`, `city_name`, `region_name`, `period`) key of the
period-level rollup of `_city_distributions`. -/
def pkeyD (r : DailyAgg) : Int × String × String × String :=
  (r.city_id, r.city_name, r.region_name, r.period)

/-- The (`city_id`, `city_name`, `region_name`, `year`) key of the
year-level rollup of `_city_distributions`. -/
def ykeyD (r : DailyAgg) : Int × String × String × Int :=
  (r.city_id, r.city_name, r.region_name, r.year)

/-- The shared aggregation dictionary of `_city_distributions`, applied to one
group `g`: `days = ("date_local", "count")` (the daily `date_local` column is
never null, so this is the group size); `pm25_mean` averages the *daily mean*
column; `pm25_median`, `pm25_p90`, `pm25_p10` are quantiles of the *daily
median* column; `exceedance_share` is the skip-NaN mean of the daily shares;
`days_with_coverage_ge18` counts days with `available_hours ≥ 18`. -/
def mkDistRow (g : List DailyAgg) (cid : Int) (nm rg : String)
    (per : Option String) (yr : Option Int) (lvl : String) : DistAgg :=
  { city_id := cid, city_name := nm, region_name := rg, period := per, year := yr,
    days := g.length,
    pm25_mean := meanQ (g.map (fun r => r.pm25_mean)),
    pm25_median := quantileQ (g.map (fun r => r.pm25_median)) (1 / 2),
    pm25_p90 := quantileQ (g.map (fun r => r.pm25_median)) (9 / 10),
    pm25_p10 := quantileQ (g.map (fun r => r.pm25_median)) (1 / 10),
    exceedance_share := meanQ (g.filterMap (fun r => r.exceedance_share)),
    available_hours_mean := meanQ (g.map (fun r => (r.available_hours : ℚ))),
    days_with_coverage_ge18 := (g.filter (fun r => decide (18 ≤ r.available_hours))).length,
    aggregation_level := lvl }

/-- `_city_distributions`: the period-level rollup rows followed by the
year-level rollup rows (`pd.concat`), each tagged with its
`aggregation_level`. -/
def cityDistributions (daily : List DailyAgg) : List DistAgg :=
  ((groupKeys daily pkeyD).map (fun k =>
    mkDistRow (groupOf daily pkeyD k) k.1 k.2.1 k.2.2.1 (some k.2.2.2) none "period"))
  ++ ((groupKeys daily ykeyD).map (fun k =>
    mkDistRow (groupOf daily ykeyD k) k.1 k.2.1 k.2.2.1 none (some k.2.2.2) "year"))

/-- The daily-table view that `aggregate_data` hands to
`eligible_city_year_pairs_from_daily` (its `date_local` column is a real
date, so the re-parse inside the eligibility function is the identity). -/
def dailyRowOfAgg (d : DailyAgg) : DailyRow :=
  ⟨d.city_id, d.city_name, some d.date_local, d.available_hours⟩

/-- The eligibility-gate step of `aggregate_data` (stage 5): compute the
eligible (city, year) pairs from the daily table, raise
`RuntimeError("No cities meet coverage criteria for analysis")` when the set
is empty — before any output table is written — and otherwise inner-join the
enriched hourly table and the daily table against the pair set on
(`city_id`, `year`).  The pair frame is built from a python set, so its keys
are unique and carry no further columns: the inner merge keeps exactly the
left rows whose key belongs to the set. -/
def aggregateGate (hourlyEnriched : List HourlyRow) (daily : List DailyAgg) :
    Except String (List HourlyRow × List DailyAgg) :=
  let pairs := eligibleCityYearPairsFromDaily (daily.map dailyRowOfAgg)
  if pairs = ∅ then Except.error "No cities meet coverage criteria for analysis"
  else Except.ok
    (hourlyEnriched.filter (fun r => decide ((r.city_id, r.year) ∈ pairs)),
     daily.filter (fun r => decide ((r.city_id, r.year) ∈ pairs)))

/-! ### Helper lemmas -/

/-- The 0.7 threshold on the guarded ratio, in integer form: a group passes
iff it has at least one day and `7 * days ≤ 10 * coverage_days`. -/
lemma rate_ge_iff (dd cd : Nat) :
    minCoverageRate ≤ (if 0 < dd then (cd : ℚ) / (dd : ℚ) else 0) ↔
      0 < dd ∧ 7 * dd ≤ 10 * cd := by
  unfold minCoverageRate
  rcases Nat.eq_zero_or_pos dd with h | h
  · subst h
    norm_num
  · have hd : (0 : ℚ) < (dd : ℚ) := by exact_mod_cast h
    rw [if_pos h, div_le_div_iff₀ (by norm_num : (0 : ℚ) < 10) hd]
    constructor
    · intro hle
      refine ⟨h, ?_⟩
      have h10 : (7 : ℚ) * dd ≤ 10 * cd := by linarith
      exact_mod_cast h10
    · rintro ⟨-, hle⟩
      have h10 : (7 : ℚ) * dd ≤ 10 * cd := by exact_mod_cast hle
      linarith

/-- Every row of the coverage table carries the `np.where`-guarded ratio of
its own `coverage_days` and `days` fields. -/
lemma coverage_rate_eq {l : List CovInput} {cr : CoverageRow} (h : cr ∈ coverageRows l) :
    cr.coverage_rate = if 0 < cr.days then (cr.coverage_days : ℚ) / (cr.days : ℚ) else 0 := by
  unfold coverageRows at h
  rw [List.mem_map] at h
  obtain ⟨k, -, rfl⟩ := h
  rfl

/-- On coverage-table rows, the good-year test is the integer threshold. -/
lemma goodYearB_iff {l : List CovInput} {cr : CoverageRow} (h : cr ∈ coverageRows l) :
    goodYearB cr = true ↔ 0 < cr.days ∧ 7 * cr.days ≤ 10 * cr.coverage_days := by
  unfold goodYearB
  rw [decide_eq_true_eq, coverage_rate_eq h, rate_ge_iff]

/-- A positive distinct-year count exhibits a witnessing good-year row. -/
lemma exists_row_of_totalYears_pos {gy : List CoverageRow} {c : Int}
    (h : 0 < totalYears gy c) :
    ∃ r ∈ gy, r.city_id = c ∧ ∃ y, r.year = some y := by
  unfold totalYears at h
  rw [List.length_pos] at h
  obtain ⟨y, hy⟩ := List.exists_mem_of_ne_nil _ h
  rw [List.mem_dedup, List.mem_filterMap] at hy
  obtain ⟨r, hr, hry⟩ := hy
  rw [List.mem_filter, decide_eq_true_eq] at hr
  exact ⟨r, hr.1, hr.2, y, hry⟩

/-- Membership in `_eligible_city_ids`: exactly the three threshold tests
(the implicit "appears in the table" condition of the source's iteration over
`total_counts` is subsumed by the total threshold). -/
lemma mem_eligibleCityIds {gy : List CoverageRow} {c : Int} :
    c ∈ eligibleCityIds gy ↔
      minTotalYears ≤ totalYears gy c ∧ minPrewarYears ≤ prewarYears gy c ∧
        minWartimeYears ≤ wartimeYears gy c := by
  unfold eligibleCityIds
  rw [List.mem_toFinset, List.mem_filter]
  constructor
  · rintro ⟨-, hb⟩
    simp only [Bool.and_eq_true, decide_eq_true_eq] at hb
    exact ⟨hb.1.1, hb.1.2, hb.2⟩
  · rintro ⟨h1, h2, h3⟩
    refine ⟨?_, by simp [h1, h2, h3]⟩
    have h1' : 0 < totalYears gy c := by
      have : 0 < minTotalYears := by norm_num [minTotalYears]
      omega
    obtain ⟨r, hr, hc, -⟩ := exists_row_of_totalYears_pos h1'
    rw [List.mem_dedup, List.mem_map]
    exact ⟨r, hr, hc⟩

/-! ### C7: the good-year boundary -/

/-- C7: A city-year is a good year iff its coverage ratio reaches 0.7; on the
ratio `coverage_days / days` guarded by `np.where(days > 0, ..., 0.0)` this is
exactly `0 < days ∧ 7 * days ≤ 10 * coverage_days`, so the 0.7 boundary is
inclusive; and a group with `days = 0` has its ratio forced to 0 and is never
a good year. -/
theorem C7_good_year_boundary :
    (∀ (l : List CovInput) (cr : CoverageRow),
        cr ∈ computeGoodYears l ↔
          cr ∈ coverageRows l ∧ 0 < cr.days ∧ 7 * cr.days ≤ 10 * cr.coverage_days) ∧
    (∀ (l : List CovInput) (cr : CoverageRow),
        cr ∈ coverageRows l → cr.days = 0 →
          cr.coverage_rate = 0 ∧ cr ∉ computeGoodYears l) := by
  constructor
  · intro l cr
    unfold computeGoodYears
    rw [List.mem_filter]
    constructor
    · rintro ⟨h1, h2⟩
      exact ⟨h1, (goodYearB_iff h1).mp h2⟩
    · rintro ⟨h1, h2⟩
      exact ⟨h1, (goodYearB_iff h1).mpr h2⟩
  · intro l cr h hd
    have hrate : cr.coverage_rate = 0 := by
      rw [coverage_rate_eq h, hd]
      simp
    refine ⟨hrate, fun hmem => ?_⟩
    unfold computeGoodYears at hmem
    rw [List.mem_filter] at hmem
    have := (goodYearB_iff h).mp hmem.2
    omega

/-- A one-row input whose date is unparseable: its (null-year) group has
`days = 0` even though the row itself has 20 available hours. -/
def c7Input : List CovInput :=
  [⟨1, "Kyiv", none, none, 20⟩]

/-- The coverage row the `c7Input` group produces. -/
def c7Row : CoverageRow :=
  ⟨1, "Kyiv", none, 0, 1, 0⟩

/-- Witness for C7 at a concrete zero-day group. -/
theorem C7_good_year_boundary_witness :
    c7Row.coverage_rate = 0 ∧ c7Row ∉ computeGoodYears c7Input :=
  C7_good_year_boundary.2 c7Input c7Row (by with_unfolding_all decide) rfl

/-! ### C6: the city eligibility rule -/

/-- A four-good-year table for city 1: two pre-war years (2020, 2021) and two
wartime years (2022, 2023), each with 10 observed days and 9 covered days. -/
def c6Rows : List CoverageRow :=
  [⟨1, "Kyiv", some 2020, 10, 9, 9 / 10⟩,
   ⟨1, "Kyiv", some 2021, 10, 9, 9 / 10⟩,
   ⟨1, "Kyiv", some 2022, 10, 9, 9 / 10⟩,
   ⟨1, "Kyiv", some 2023, 10, 9, 9 / 10⟩]

/-- C6: a city is eligible iff its distinct good years number at least 4, its
good years `≤ 2021` at least 2 and its good years `≥ 2022` at least 2; a city
with exactly 4 good years split 2 pre-war / 2 wartime is eligible, and
removing any one of them destroys eligibility. -/
theorem C6_city_eligibility_rule :
    (∀ (gy : List CoverageRow) (c : Int),
        c ∈ eligibleCityIds gy ↔
          4 ≤ totalYears gy c ∧ 2 ≤ prewarYears gy c ∧ 2 ≤ wartimeYears gy c) ∧
    ((1 : Int) ∈ eligibleCityIds c6Rows ∧
      ∀ r ∈ c6Rows, (1 : Int) ∉ eligibleCityIds (c6Rows.erase r)) := by
  refine ⟨fun gy c => ?_, by with_unfolding_all decide, by with_unfolding_all decide⟩
  simpa [minTotalYears, minPrewarYears, minWartimeYears] using
    (@mem_eligibleCityIds gy c)

/-- Witness for C6: removing the 2020 row from the 4-year table makes city 1
ineligible. -/
theorem C6_city_eligibility_rule_witness :
    (1 : Int) ∉ eligibleCityIds (c6Rows.erase ⟨1, "Kyiv", some 2020, 10, 9, 9 / 10⟩) :=
  C6_city_eligibility_rule.2.2 _ (by with_unfolding_all decide)

/-! ### C2: the [10, 20, 30, NaN] scenario -/

/-- One city-day of hourly records with pm2.5 values 10, 20, 30 and NaN, all
four records valid (a NaN pm2.5 passes the validity rule). -/
def c2Hourly : List HourlyRow :=
  [⟨1, "Kyiv", "Kyivska", ⟨2021, 40⟩, 0, 2021, some 10, true⟩,
   ⟨1, "Kyiv", "Kyivska", ⟨2021, 40⟩, 1, 2021, some 20, true⟩,
   ⟨1, "Kyiv", "Kyivska", ⟨2021, 40⟩, 2, 2021, some 30, true⟩,
   ⟨1, "Kyiv", "Kyivska", ⟨2021, 40⟩, 3, 2021, none, true⟩]

/-- The (available_hours, exceedance_hours, exceedance_share) projection of a
daily run. -/
def c2Project (e : Except String (List DailyAgg)) : Option (List (Nat × Nat × Option ℚ)) :=
  (e.toOption).map (fun rows =>
    rows.map (fun r => (r.available_hours, r.exceedance_hours, r.exceedance_share)))

/-- C2 counterexample: on the [10, 20, 30, NaN] day with guideline 15 the
code yields available_hours = 4 (the `"size"` aggregation counts the NaN
record), exceedance_hours = 2 (both 20 and 30 exceed 15) and
exceedance_share = 1/2 — not the claimed (3, 1, 1/3). -/
theorem C2_counterexample :
    c2Project (dailyAggregates c2Hourly 15 ⟨2022, 55⟩) = some [(4, 2, some (1 / 2))] ∧
      c2Project (dailyAggregates c2Hourly 15 ⟨2022, 55⟩) ≠ some [(3, 1, some (1 / 3))] := by
  with_unfolding_all decide

/-- C2 amended: daily aggregation of the [10, 20, 30, NaN] day (all records
valid) with guideline 15 produces exactly one row, with available_hours = 4,
exceedance_hours = 2 and exceedance_share = 1/2. -/
theorem C2_daily_scenario :
    c2Project (dailyAggregates c2Hourly 15 ⟨2022, 55⟩) = some [(4, 2, some (1 / 2))] := by
  with_unfolding_all decide

/-! ### C3: which daily column feeds each distribution statistic -/

/-- The daily rows a distribution row summarises, recovered from the row's
own key fields: the period-level group on `period`, the year-level group on
`year`. -/
def distGroup (daily : List DailyAgg) (row : DistAgg) : List DailyAgg :=
  if row.aggregation_level = "period" then
    daily.filter (fun x => decide (x.city_id = row.city_id ∧ x.city_name = row.city_name ∧
      x.region_name = row.region_name ∧ some x.period = row.period))
  else
    daily.filter (fun x => decide (x.city_id = row.city_id ∧ x.city_name = row.city_name ∧
      x.region_name = row.region_name ∧ some x.year = row.year))

/-- Two daily rows of one city whose daily means are 0 but whose daily
medians are 10: they separate "mean of daily means" from "mean of daily
medians". -/
def c3Daily : List DailyAgg :=
  [⟨1, "Kyiv", "Kyivska", ⟨2021, 5⟩, 0, 10, 0, 0, 0, 20, 0, some 0, 2021, "pre_war"⟩,
   ⟨1, "Kyiv", "Kyivska", ⟨2021, 6⟩, 0, 10, 0, 0, 0, 20, 0, some 0, 2021, "pre_war"⟩]

/-- C3 counterexample: on `c3Daily`, every city-distribution row (both
granularities) carries pm25_mean = 0, while the mean of the daily pm25
medians is 10 — so pm25_mean is *not* computed over the daily medians. -/
theorem C3_counterexample :
    (cityDistributions c3Daily).map (fun r => r.pm25_mean) = [0, 0] ∧
      meanQ (c3Daily.map (fun r => r.pm25_median)) = 10 ∧ (0 : ℚ) ≠ 10 := by
  with_unfolding_all decide

/-- C3 amended: in both rollup granularities, pm25_mean averages the *daily
mean* column, while pm25_median, pm25_p90 and pm25_p10 are quantiles of the
*daily median* column. -/
theorem C3_distribution_columns (daily : List DailyAgg) (row : DistAgg)
    (h : row ∈ cityDistributions daily) :
    row.pm25_mean = meanQ ((distGroup daily row).map (fun r => r.pm25_mean)) ∧
    row.pm25_median = quantileQ ((distGroup daily row).map (fun r => r.pm25_median)) (1 / 2) ∧
    row.pm25_p90 = quantileQ ((distGroup daily row).map (fun r => r.pm25_median)) (9 / 10) ∧
    row.pm25_p10 = quantileQ ((distGroup daily row).map (fun r => r.pm25_median)) (1 / 10) := by
  unfold cityDistributions at h
  rw [List.mem_append] at h
  rcases h with h | h
  all_goals rw [List.mem_map] at h
  all_goals obtain ⟨k, hk, rfl⟩ := h
  · have hgrp : distGroup daily
        (mkDistRow (groupOf daily pkeyD k) k.1 k.2.1 k.2.2.1 (some k.2.2.2) none "period")
        = groupOf daily pkeyD k := by
      unfold distGroup groupOf
      simp only [mkDistRow, if_true, if_false]
      apply List.filter_congr
      intro x _
      apply decide_eq_decide.mpr
      simp only [pkeyD, Prod.ext_iff, Option.some_inj]
    rw [hgrp]
    exact ⟨rfl, rfl, rfl, rfl⟩
  · have hgrp : distGroup daily
        (mkDistRow (groupOf daily ykeyD k) k.1 k.2.1 k.2.2.1 none (some k.2.2.2) "year")
        = groupOf daily ykeyD k := by
      unfold distGroup groupOf
      simp only [mkDistRow, if_true, if_false]
      apply List.filter_congr
      intro x _
      apply decide_eq_decide.mpr
      simp only [ykeyD, Prod.ext_iff, Option.some_inj]
    rw [hgrp]
    exact ⟨rfl, rfl, rfl, rfl⟩

/-- A one-day daily table for the C3 witness. -/
def c3wDaily : List DailyAgg :=
  [⟨1, "Kyiv", "Kyivska", ⟨2021, 5⟩, 3, 4, 0, 0, 0, 20, 0, some 0, 2021, "pre_war"⟩]

/-- The period-level distribution row `c3wDaily` produces. -/
def c3wRow : DistAgg :=
  ⟨1, "Kyiv", "Kyivska", some "pre_war", none, 1, 3, 4, 4, 4, 0, 20, 1, "period"⟩

/-- Witness for C3 at a concrete one-day table. -/
theorem C3_distribution_columns_witness :
    c3wRow.pm25_mean = meanQ ((distGroup c3wDaily c3wRow).map (fun r => r.pm25_mean)) ∧
    c3wRow.pm25_median = quantileQ ((distGroup c3wDaily c3wRow).map (fun r => r.pm25_median)) (1 / 2) ∧
    c3wRow.pm25_p90 = quantileQ ((distGroup c3wDaily c3wRow).map (fun r => r.pm25_median)) (9 / 10) ∧
    c3wRow.pm25_p10 = quantileQ ((distGroup c3wDaily c3wRow).map (fun r => r.pm25_median)) (1 / 10) :=
  C3_distribution_columns c3wDaily c3wRow (by with_unfolding_all decide)

/-! ### C10: no zero-record daily rows -/

/-- C10: every row of the daily aggregate table has at least one valid hourly
record behind it — its group key is the key of some valid input record — so
`available_hours ≥ 1` and the NaN branch of `exceedance_share` is never
taken. -/
theorem C10_no_zero_record_rows (hourly : List HourlyRow) (guideline : ℚ) (ws : DateL)
    (rows : List DailyAgg) (hok : dailyAggregates hourly guideline ws = Except.ok rows) :
    ∀ r ∈ rows, 1 ≤ r.available_hours ∧ r.exceedance_share.isSome = true ∧
      ∃ hr, hr ∈ hourly ∧ hr.is_valid = true ∧
        dkey hr = (r.city_id, r.city_name, r.region_name, r.date_local) := by
  unfold dailyAggregates at hok
  by_cases he : hourly.filter (fun r => r.is_valid) = []
  · rw [if_pos he] at hok
    cases hok
  · rw [if_neg he] at hok
    injection hok with hok
    subst hok
    intro r hr
    rw [List.mem_map] at hr
    obtain ⟨k, hk, rfl⟩ := hr
    have hkk := hk
    unfold groupKeys at hkk
    rw [List.mem_dedup, List.mem_map] at hkk
    obtain ⟨x, hx, hxk⟩ := hkk
    have hxg : x ∈ groupOf (hourly.filter (fun r => r.is_valid)) dkey k := by
      unfold groupOf
      rw [List.mem_filter]
      exact ⟨hx, by simp [hxk]⟩
    have hlen : 0 < (groupOf (hourly.filter (fun r => r.is_valid)) dkey k).length :=
      List.length_pos_of_mem hxg
    rw [List.mem_filter] at hx
    refine ⟨hlen, ?_, x, hx.1, hx.2, hxk⟩
    show (if 0 < (groupOf (hourly.filter (fun r => r.is_valid)) dkey k).length
      then some _ else none).isSome = true
    rw [if_pos hlen]
    rfl

/-- Valid single-record input for the C10 witness. -/
def c10Hourly : List HourlyRow :=
  [⟨7, "Lviv", "Lvivska", ⟨2020, 100⟩, 12, 2020, some 5, true⟩]

/-- The daily row `c10Hourly` produces. -/
def c10Row : DailyAgg :=
  ⟨7, "Lviv", "Lvivska", ⟨2020, 100⟩, 5, 5, 5, 5, 5, 1, 0, some 0, 2020, "pre_war"⟩

/-- Witness for C10 at a concrete one-record input. -/
theorem C10_no_zero_record_rows_witness :
    1 ≤ c10Row.available_hours ∧ c10Row.exceedance_share.isSome = true ∧
      ∃ hr, hr ∈ c10Hourly ∧ hr.is_valid = true ∧
        dkey hr = (c10Row.city_id, c10Row.city_name, c10Row.region_name, c10Row.date_local) :=
  C10_no_zero_record_rows c10Hourly 15 ⟨2022, 55⟩ [c10Row]
    (by with_unfolding_all rfl) c10Row (by with_unfolding_all decide)

/-! ### C5: daily bounds -/

/-- C5: on hourly input that is genuinely hourly — hours are in 0..23 and no
two distinct valid records share both a (city, name, region, date) key and a
local hour — every daily row has `available_hours ≤ 24` (it is a `Nat`, so
`0 ≤` holds trivially), and whenever `available_hours > 0` the exceedance
share is defined and lies in [0, 1]; the share is undefined only when
`available_hours = 0`. -/
theorem C5_daily_invariants (hourly : List HourlyRow) (guideline : ℚ) (ws : DateL)
    (rows : List DailyAgg) (hok : dailyAggregates hourly guideline ws = Except.ok rows)
    (hhours : ∀ r ∈ hourly, r.hour_local < 24)
    (hnodup : (hourly.filter (fun r => r.is_valid)).Nodup)
    (hinj : ∀ r ∈ hourly, ∀ s ∈ hourly, r.is_valid = true → s.is_valid = true →
      dkey r = dkey s → r.hour_local = s.hour_local → r = s) :
    ∀ r ∈ rows, r.available_hours ≤ 24 ∧
      (∀ q, r.exceedance_share = some q → 0 ≤ q ∧ q ≤ 1) ∧
      (r.exceedance_share = none → r.available_hours = 0) := by
  unfold dailyAggregates at hok
  by_cases he : hourly.filter (fun r => r.is_valid) = []
  · rw [if_pos he] at hok
    cases hok
  · rw [if_neg he] at hok
    injection hok with hok
    subst hok
    intro r hr
    rw [List.mem_map] at hr
    obtain ⟨k, hk, rfl⟩ := hr
    set valid := hourly.filter (fun r => r.is_valid) with hvalid
    set g := groupOf valid dkey k with hg
    have hsub : ∀ x ∈ g, x ∈ hourly ∧ x.is_valid = true ∧ dkey x = k := by
      intro x hx
      rw [hg] at hx
      unfold groupOf at hx
      rw [List.mem_filter, decide_eq_true_eq] at hx
      rw [hvalid, List.mem_filter] at hx
      exact ⟨hx.1.1, hx.1.2, hx.2⟩
    have hgnodup : g.Nodup := by
      rw [hg]
      exact List.Nodup.filter _ hnodup
    have hmapnodup : (g.map (fun x => x.hour_local)).Nodup := by
      refine List.Nodup.map_on ?_ hgnodup
      intro x hx y hy hxy
      obtain ⟨hx1, hx2, hx3⟩ := hsub x hx
      obtain ⟨hy1, hy2, hy3⟩ := hsub y hy
      exact hinj x hx1 y hy1 hx2 hy2 (hx3.trans hy3.symm) hxy
    have hbound : g.length ≤ 24 := by
      have hsubfin : (g.map (fun x => x.hour_local)).toFinset ⊆ Finset.range 24 := by
        intro y hy
        rw [List.mem_toFinset, List.mem_map] at hy
        obtain ⟨x, hx, rfl⟩ := hy
        rw [Finset.mem_range]
        exact hhours x (hsub x hx).1
      calc g.length = (g.map (fun x => x.hour_local)).length := (List.length_map _ _).symm
        _ = (g.map (fun x => x.hour_local)).dedup.length := by
            rw [List.Nodup.dedup hmapnodup]
        _ = (g.map (fun x => x.hour_local)).toFinset.card := (List.card_toFinset _).symm
        _ ≤ (Finset.range 24).card := Finset.card_le_card hsubfin
        _ = 24 := Finset.card_range 24
    refine ⟨hbound, ?_, ?_⟩
    · intro q hq
      have hexc : (g.filter (exceedB guideline)).length ≤ g.length :=
        List.length_filter_le _ _
      replace hq : (if 0 < g.length then some (((g.filter (exceedB guideline)).length : ℚ)
          / (g.length : ℚ)) else none) = some q := hq
      by_cases hpos : 0 < g.length
      · rw [if_pos hpos] at hq
        injection hq with hq
        subst hq
        constructor
        · positivity
        · rw [div_le_one (by exact_mod_cast hpos)]
          exact_mod_cast hexc
      · rw [if_neg hpos] at hq
        cases hq
    · intro hq
      replace hq : (if 0 < g.length then some (((g.filter (exceedB guideline)).length : ℚ)
          / (g.length : ℚ)) else none) = none := hq
      show g.length = 0
      by_cases hpos : 0 < g.length
      · rw [if_pos hpos] at hq
        cases hq
      · omega

/-- Valid single-record input for the C5 witness. -/
def c5Hourly : List HourlyRow :=
  [⟨2, "Dnipro", "Dniprovska", ⟨2023, 10⟩, 8, 2023, some 50, true⟩]

/-- The daily row `c5Hourly` produces under guideline 15. -/
def c5Row : DailyAgg :=
  ⟨2, "Dnipro", "Dniprovska", ⟨2023, 10⟩, 50, 50, 50, 50, 50, 1, 1, some 1, 2023, "wartime"⟩

/-- Witness for C5 at a concrete one-record input. -/
theorem C5_daily_invariants_witness :
    c5Row.available_hours ≤ 24 ∧
      (∀ q, c5Row.exceedance_share = some q → 0 ≤ q ∧ q ≤ 1) ∧
      (c5Row.exceedance_share = none → c5Row.available_hours = 0) :=
  C5_daily_invariants c5Hourly 15 ⟨2022, 55⟩ [c5Row] (by with_unfolding_all rfl)
    (by decide) (by decide) (by decide) c5Row (by with_unfolding_all decide)

/-! ### C8: the eligibility gate is an exact intersection -/

/-- C8: when the gate succeeds, a hourly row survives iff it was in the input
and its (city_id, year) pair is eligible, and likewise for daily rows. -/
theorem C8_gate_intersection (h : List HourlyRow) (d : List DailyAgg)
    (hf : List HourlyRow) (df : List DailyAgg)
    (hok : aggregateGate h d = Except.ok (hf, df)) :
    (∀ r, r ∈ hf ↔ r ∈ h ∧
        (r.city_id, r.year) ∈ eligibleCityYearPairsFromDaily (d.map dailyRowOfAgg)) ∧
    (∀ x, x ∈ df ↔ x ∈ d ∧
        (x.city_id, x.year) ∈ eligibleCityYearPairsFromDaily (d.map dailyRowOfAgg)) := by
  unfold aggregateGate at hok
  by_cases hp : eligibleCityYearPairsFromDaily (d.map dailyRowOfAgg) = ∅
  · rw [if_pos hp] at hok
    cases hok
  · rw [if_neg hp] at hok
    injection hok with hok
    rw [Prod.mk.injEq] at hok
    obtain ⟨h1, h2⟩ := hok
    subst h1
    subst h2
    constructor
    · intro r
      rw [List.mem_filter, decide_eq_true_eq]
    · intro x
      rw [List.mem_filter, decide_eq_true_eq]

/-- Four one-day years of full coverage for city 1: enough to make the city
eligible with pairs (1, 2020) ... (1, 2023). -/
def c8Daily : List DailyAgg :=
  [⟨1, "Kyiv", "Kyivska", ⟨2020, 30⟩, 12, 12, 12, 12, 12, 18, 0, some 0, 2020, "pre_war"⟩,
   ⟨1, "Kyiv", "Kyivska", ⟨2021, 30⟩, 12, 12, 12, 12, 12, 18, 0, some 0, 2021, "pre_war"⟩,
   ⟨1, "Kyiv", "Kyivska", ⟨2022, 30⟩, 12, 12, 12, 12, 12, 18, 0, some 0, 2022, "pre_war"⟩,
   ⟨1, "Kyiv", "Kyivska", ⟨2023, 30⟩, 12, 12, 12, 12, 12, 18, 0, some 0, 2023, "wartime"⟩]

/-- An enriched hourly row of the eligible pair (1, 2020). -/
def c8HourlyRow : HourlyRow :=
  ⟨1, "Kyiv", "Kyivska", ⟨2020, 30⟩, 3, 2020, some 12, true⟩

/-- Witness for C8: on `c8Daily` the gate succeeds and keeps the hourly row
of the eligible pair (1, 2020). -/
theorem C8_gate_intersection_witness :
    c8HourlyRow ∈ [c8HourlyRow] ↔ c8HourlyRow ∈ [c8HourlyRow] ∧
      (c8HourlyRow.city_id, c8HourlyRow.year) ∈
        eligibleCityYearPairsFromDaily (c8Daily.map dailyRowOfAgg) :=
  (C8_gate_intersection [c8HourlyRow] c8Daily [c8HourlyRow] c8Daily
    (by with_unfolding_all rfl)).1 c8HourlyRow

/-! ### C9: empty eligible set is fatal for the pipeline, not for the engine -/

/-- C9: `aggregate_data` raises (producing no output tables) whenever the
eligible pair set is empty, while the eligibility functions themselves are
total and return the empty set on empty input. -/
theorem C9_empty_eligible_fatal :
    (∀ (h : List HourlyRow) (d : List DailyAgg),
        eligibleCityYearPairsFromDaily (d.map dailyRowOfAgg) = ∅ →
          aggregateGate h d =
            Except.error "No cities meet coverage criteria for analysis") ∧
    eligibleCityYearPairsFromDaily [] = ∅ ∧
    eligibleCityIdsFromDaily [] = ∅ ∧
    eligibleCityIdsFromDistributions [] = ∅ := by
  refine ⟨?_, rfl, rfl, rfl⟩
  intro h d hp
  unfold aggregateGate
  rw [if_pos hp]

/-- Witness for C9: the gate on an empty daily table errors out. -/
theorem C9_empty_eligible_fatal_witness :
    aggregateGate [] [] = Except.error "No cities meet coverage criteria for analysis" :=
  C9_empty_eligible_fatal.1 [] [] rfl

/-! ### C4: malformed dates contribute nothing -/

/-- Deduplication commutes with filtering. -/
lemma dedup_filter {α : Type} [DecidableEq α] (p : α → Bool) (l : List α) :
    (l.filter p).dedup = l.dedup.filter p := by
  induction l with
  | nil => rfl
  | cons x xs ih =>
    by_cases hx : p x = true
    · rw [List.filter_cons_of_pos hx]
      by_cases hmem : x ∈ xs
      · rw [List.dedup_cons_of_mem (List.mem_filter.mpr ⟨hmem, hx⟩), ih,
          List.dedup_cons_of_mem hmem]
      · rw [List.dedup_cons_of_not_mem (fun hc => hmem (List.mem_filter.mp hc).1), ih,
          List.dedup_cons_of_not_mem hmem, List.filter_cons_of_pos hx]
    · rw [List.filter_cons_of_neg hx, ih]
      by_cases hmem : x ∈ xs
      · rw [List.dedup_cons_of_mem hmem]
      · rw [List.dedup_cons_of_not_mem hmem, List.filter_cons_of_neg hx]

/-- Filtering rows by a predicate on their key filters the group-key list. -/
lemma groupKeys_filter_of_key {α κ : Type} [DecidableEq κ] (l : List α) (key : α → κ)
    (p : κ → Bool) :
    groupKeys (l.filter (fun r => p (key r))) key = (groupKeys l key).filter p := by
  unfold groupKeys
  rw [show (l.filter (fun r => p (key r))).map key = (l.map key).filter p from
    (List.filter_map key l).symm, dedup_filter]

/-- For a key satisfying the row predicate, the group inside the filtered
frame is the group inside the full frame. -/
lemma groupOf_filter_of_key {α κ : Type} [DecidableEq κ] (l : List α) (key : α → κ)
    (p : κ → Bool) (k : κ) (hk : p k = true) :
    groupOf (l.filter (fun r => p (key r))) key k = groupOf l key k := by
  unfold groupOf
  rw [List.filter_filter]
  apply List.filter_congr
  intro x _
  by_cases h : key x = k
  · simp [h, hk]
  · simp [h]

/-- Dropping the keys whose images fail `g` anyway does not change a
`filter g` over the mapped keys. -/
lemma map_filter_of_bad {κ β : Type} (ks : List κ) (f : κ → β) (p : κ → Bool)
    (g : β → Bool) (h : ∀ k ∈ ks, p k = false → g (f k) = false) :
    (ks.map f).filter g = ((ks.filter p).map f).filter g := by
  induction ks with
  | nil => rfl
  | cons k ks ih =>
    have ih' := ih (fun a ha hpa => h a (List.mem_cons_of_mem _ ha) hpa)
    by_cases hp : p k = true
    · rw [List.filter_cons_of_pos hp]
      simp only [List.map_cons]
      by_cases hg : g (f k) = true
      · rw [List.filter_cons_of_pos hg, List.filter_cons_of_pos hg, ih']
      · rw [List.filter_cons_of_neg hg, List.filter_cons_of_neg hg, ih']
    · have hpf : p k = false := by
        revert hp
        cases p k <;> simp
      have hgf := h k (List.mem_cons_self k ks) hpf
      rw [List.filter_cons_of_neg (by simp [hpf])]
      simp only [List.map_cons]
      rw [List.filter_cons_of_neg (by simp [hgf]), ih']

/-- On frames whose `year` column is derived from `date_local` (null year
exactly on null date), the good-year table ignores the null-year rows: they
form groups with `days = 0`, which the ratio filter removes. -/
lemma computeGoodYears_filter_year (l : List CovInput)
    (hinv : ∀ r ∈ l, r.year.isNone = true → r.date_local = none) :
    computeGoodYears l = computeGoodYears (l.filter (fun r => r.year.isSome)) := by
  have hkeys : groupKeys (l.filter (fun r => r.year.isSome)) gyKey
      = (groupKeys l gyKey).filter (fun k => k.2.2.isSome) :=
    groupKeys_filter_of_key l gyKey (fun k => k.2.2.isSome)
  have hbad : ∀ k ∈ groupKeys l gyKey, (fun k : Int × String × Option Int => k.2.2.isSome) k
      = false → goodYearB (mkCoverageRow l k) = false := by
    intro k _ hk
    replace hk : k.2.2.isSome = false := hk
    have hknone : k.2.2 = none := by
      cases hc : k.2.2 with
      | none => rfl
      | some v => rw [hc] at hk; cases hk
    have hdates : (groupOf l gyKey k).filterMap (fun r => r.date_local) = [] := by
      rw [List.filterMap_eq_nil_iff]
      intro r hr
      unfold groupOf at hr
      rw [List.mem_filter, decide_eq_true_eq] at hr
      have hy : r.year = none := by
        have : (gyKey r).2.2 = k.2.2 := by rw [hr.2]
        unfold gyKey at this
        simpa [hknone] using this
      exact hinv r hr.1 (by rw [hy]; rfl)
    have hdays : ((groupOf l gyKey k).filterMap (fun r => r.date_local)).dedup.length = 0 := by
      rw [hdates]
      rfl
    show goodYearB (mkCoverageRow l k) = false
    unfold mkCoverageRow goodYearB
    simp only [hdays]
    rw [if_neg (by omega)]
    with_unfolding_all decide
  have hmk : ∀ k ∈ (groupKeys l gyKey).filter (fun k => k.2.2.isSome),
      mkCoverageRow l k = mkCoverageRow (l.filter (fun r => r.year.isSome)) k := by
    intro k hk
    rw [List.mem_filter] at hk
    unfold mkCoverageRow
    rw [show groupOf (l.filter (fun r => r.year.isSome)) gyKey k = groupOf l gyKey k from
      groupOf_filter_of_key l gyKey (fun k => k.2.2.isSome) k hk.2]
  unfold computeGoodYears coverageRows
  rw [map_filter_of_bad (groupKeys l gyKey) (mkCoverageRow l) (fun k => k.2.2.isSome)
    goodYearB hbad, List.map_congr_left hmk, ← hkeys]

/-- C4: rows whose `date_local` failed to parse (and therefore carry a null
year) contribute nothing to the eligible (city_id, year) pairs: the result on
any daily table equals the result on the table with those rows removed.  (In
the source the null-year rows do reach the `dropna=False` grouping, but the
group they form has `days = 0` — its dates are all NaT, which `nunique`
ignores — so the coverage filter discards it and no statistic, good-year
count or output pair is affected: the net effect is that of dropping the rows
before grouping, as the spec describes.) -/
theorem C4_malformed_dates_contribute_nothing :
    ∀ daily : List DailyRow,
      eligibleCityYearPairsFromDaily daily =
        eligibleCityYearPairsFromDaily (daily.filter (fun r => r.date_local.isSome)) := by
  intro daily
  have hmapfilter : (daily.filter (fun r => r.date_local.isSome)).map erow
      = (daily.map erow).filter (fun e => e.year.isSome) := by
    rw [List.filter_map erow daily]
    congr 1
    apply List.filter_congr
    intro r _
    cases hd : r.date_local <;> simp [erow, Function.comp, hd]
  have hgy : computeGoodYears (daily.map erow)
      = computeGoodYears ((daily.filter (fun r => r.date_local.isSome)).map erow) := by
    rw [hmapfilter]
    apply computeGoodYears_filter_year
    intro e he hnone
    rw [List.mem_map] at he
    obtain ⟨r, -, rfl⟩ := he
    replace hnone : (r.date_local.map DateL.year).isNone = true := hnone
    show r.date_local = none
    cases hd : r.date_local with
    | none => rfl
    | some d => rw [hd] at hnone; simp at hnone
  by_cases h1 : daily = []
  · subst h1
    rfl
  · by_cases h2 : daily.filter (fun r => r.date_local.isSome) = []
    · unfold eligibleCityYearPairsFromDaily
      rw [if_neg h1, if_pos h2]
      have hempty : computeGoodYears (daily.map erow) = [] := by
        rw [hgy, h2]
        rfl
      simp only [hempty, List.filter_nil, List.filterMap_nil, List.toFinset_nil]
    · unfold eligibleCityYearPairsFromDaily
      rw [if_neg h1, if_neg h2, hgy]

/-! ### C1: the two entry points agree -/

/-- The set of (city_id, year) pairs carried by a good-year table. -/
def goodPairsF (gy : List CoverageRow) : Finset (Int × Int) :=
  (gy.filterMap (fun r => r.year.map (fun y => (r.city_id, y)))).toFinset

lemma mem_goodPairsF {gy : List CoverageRow} {c y : Int} :
    (c, y) ∈ goodPairsF gy ↔ ∃ r ∈ gy, r.city_id = c ∧ r.year = some y := by
  unfold goodPairsF
  rw [List.mem_toFinset, List.mem_filterMap]
  constructor
  · rintro ⟨r, hr, hmap⟩
    rw [Option.map_eq_some'] at hmap
    obtain ⟨a, ha, hfa⟩ := hmap
    rw [Prod.mk.injEq] at hfa
    exact ⟨r, hr, hfa.1, by rw [ha, hfa.2]⟩
  · rintro ⟨r, hr, h1, h2⟩
    refine ⟨r, hr, ?_⟩
    rw [h2, Option.map_some', h1]

/-- The distinct-good-year count of a city is a function of the pair set. -/
lemma totalYears_pairs (gy : List CoverageRow) (c : Int) :
    totalYears gy c = (((goodPairsF gy).filter (fun p => p.1 = c)).image Prod.snd).card := by
  unfold totalYears
  rw [← List.card_toFinset]
  congr 1
  ext y
  rw [List.mem_toFinset, List.mem_filterMap]
  simp only [Finset.mem_image, Finset.mem_filter]
  constructor
  · rintro ⟨r, hr, hy⟩
    rw [List.mem_filter, decide_eq_true_eq] at hr
    exact ⟨(c, y), ⟨mem_goodPairsF.mpr ⟨r, hr.1, hr.2, hy⟩, rfl⟩, rfl⟩
  · rintro ⟨⟨c', y'⟩, ⟨hp, hpc⟩, hpy⟩
    replace hpc : c' = c := hpc
    replace hpy : y' = y := hpy
    subst hpc
    subst hpy
    obtain ⟨r, hr, h1, h2⟩ := mem_goodPairsF.mp hp
    exact ⟨r, List.mem_filter.mpr ⟨hr, by rw [decide_eq_true_eq]; exact h1⟩, h2⟩

/-- The pre-war distinct-good-year count is a function of the pair set. -/
lemma prewarYears_pairs (gy : List CoverageRow) (c : Int) :
    prewarYears gy c =
      (((goodPairsF gy).filter (fun p => p.1 = c ∧ p.2 ≤ 2021)).image Prod.snd).card := by
  unfold prewarYears
  rw [← List.card_toFinset]
  congr 1
  ext y
  rw [List.mem_toFinset, List.mem_filterMap]
  simp only [Finset.mem_image, Finset.mem_filter]
  constructor
  · rintro ⟨r, hr, hy⟩
    rw [List.mem_filter, decide_eq_true_eq] at hr
    obtain ⟨hr', hc⟩ := hr
    rw [List.mem_filter] at hr'
    obtain ⟨hrg, hrle⟩ := hr'
    have hle : y ≤ 2021 := by
      unfold yearLeB at hrle
      rw [hy] at hrle
      replace hrle : decide (y ≤ 2021) = true := hrle
      exact of_decide_eq_true hrle
    exact ⟨(c, y), ⟨mem_goodPairsF.mpr ⟨r, hrg, hc, hy⟩, rfl, hle⟩, rfl⟩
  · rintro ⟨⟨c', y'⟩, ⟨hp, hpc, hple⟩, hpy⟩
    replace hpc : c' = c := hpc
    replace hpy : y' = y := hpy
    replace hple : y' ≤ 2021 := hple
    subst hpc
    subst hpy
    obtain ⟨r, hr, h1, h2⟩ := mem_goodPairsF.mp hp
    refine ⟨r, ?_, h2⟩
    rw [List.mem_filter, decide_eq_true_eq]
    refine ⟨List.mem_filter.mpr ⟨hr, ?_⟩, h1⟩
    unfold yearLeB
    rw [h2]
    exact decide_eq_true hple

/-- The wartime distinct-good-year count is a function of the pair set. -/
lemma wartimeYears_pairs (gy : List CoverageRow) (c : Int) :
    wartimeYears gy c =
      (((goodPairsF gy).filter (fun p => p.1 = c ∧ 2022 ≤ p.2)).image Prod.snd).card := by
  unfold wartimeYears
  rw [← List.card_toFinset]
  congr 1
  ext y
  rw [List.mem_toFinset, List.mem_filterMap]
  simp only [Finset.mem_image, Finset.mem_filter]
  constructor
  · rintro ⟨r, hr, hy⟩
    rw [List.mem_filter, decide_eq_true_eq] at hr
    obtain ⟨hr', hc⟩ := hr
    rw [List.mem_filter] at hr'
    obtain ⟨hrg, hrge⟩ := hr'
    have hge : 2022 ≤ y := by
      unfold yearGeB at hrge
      rw [hy] at hrge
      replace hrge : decide (2022 ≤ y) = true := hrge
      exact of_decide_eq_true hrge
    exact ⟨(c, y), ⟨mem_goodPairsF.mpr ⟨r, hrg, hc, hy⟩, rfl, hge⟩, rfl⟩
  · rintro ⟨⟨c', y'⟩, ⟨hp, hpc, hpge⟩, hpy⟩
    replace hpc : c' = c := hpc
    replace hpy : y' = y := hpy
    replace hpge : 2022 ≤ y' := hpge
    subst hpc
    subst hpy
    obtain ⟨r, hr, h1, h2⟩ := mem_goodPairsF.mp hp
    refine ⟨r, ?_, h2⟩
    rw [List.mem_filter, decide_eq_true_eq]
    refine ⟨List.mem_filter.mpr ⟨hr, ?_⟩, h1⟩
    unfold yearGeB
    rw [h2]
    exact decide_eq_true hpge

/-- The eligible-city set only depends on the (city, year) pair set of the
good-year table. -/
lemma eligibleCityIds_congr {gy1 gy2 : List CoverageRow}
    (h : goodPairsF gy1 = goodPairsF gy2) :
    eligibleCityIds gy1 = eligibleCityIds gy2 := by
  ext c
  rw [mem_eligibleCityIds, mem_eligibleCityIds,
    totalYears_pairs, totalYears_pairs, prewarYears_pairs, prewarYears_pairs,
    wartimeYears_pairs, wartimeYears_pairs, h]

/-- The city set of the raw-daily entry point is exactly `_eligible_city_ids`
of its good-year table (projecting the pair set to cities loses nothing,
since every eligible city contributes at least one pair). -/
lemma idsFromDaily_eq (daily : List DailyRow) :
    eligibleCityIdsFromDaily daily = eligibleCityIds (computeGoodYears (daily.map erow)) := by
  unfold eligibleCityIdsFromDaily eligibleCityYearPairsFromDaily
  by_cases h : daily = []
  · subst h
    rw [if_pos rfl]
    with_unfolding_all decide
  · rw [if_neg h]
    ext c
    rw [Finset.mem_image]
    constructor
    · rintro ⟨p, hp, rfl⟩
      rw [List.mem_toFinset, List.mem_filterMap] at hp
      obtain ⟨r, hr, hmap⟩ := hp
      rw [List.mem_filter, decide_eq_true_eq] at hr
      rw [Option.map_eq_some'] at hmap
      obtain ⟨a, ha, hfa⟩ := hmap
      rw [← hfa]
      exact hr.2
    · intro hc
      have h4 : 0 < totalYears (computeGoodYears (daily.map erow)) c := by
        have h1 := (mem_eligibleCityIds.mp hc).1
        have h0 : 0 < minTotalYears := by norm_num [minTotalYears]
        omega
      obtain ⟨r, hr, hrc, y, hy⟩ := exists_row_of_totalYears_pos h4
      refine ⟨(c, y), ?_, rfl⟩
      rw [List.mem_toFinset, List.mem_filterMap]
      refine ⟨r, ?_, ?_⟩
      · rw [List.mem_filter, decide_eq_true_eq]
        exact ⟨hr, by rw [hrc]; exact hc⟩
      · rw [hy, Option.map_some', hrc]

/-- The distributions entry point is `_eligible_city_ids` of its normalised
good-year rows (the empty-slice short-circuit returns the same empty set). -/
lemma idsFromDistributions_eq (t : List DistAgg) :
    eligibleCityIdsFromDistributions t = eligibleCityIds (distGoodYears t) := by
  unfold eligibleCityIdsFromDistributions
  by_cases h : yearLevelRows t = []
  · rw [if_pos h]
    have hempty : distGoodYears t = [] := by
      unfold distGoodYears distCoverageRows
      rw [h]
      rfl
    rw [hempty]
    with_unfolding_all decide
  · rw [if_neg h]

/-- The good pairs of the raw-daily entry point are the coverage tuples with
at least one day that meet the 0.7 threshold. -/
lemma goodPairs_daily (daily : List DailyRow) :
    goodPairsF (computeGoodYears (daily.map erow)) =
      ((coverageTuples daily).filter
        (fun q => 0 < q.2.2.1 ∧ 7 * q.2.2.1 ≤ 10 * q.2.2.2)).image
        (fun q => (q.1, q.2.1)) := by
  ext p
  obtain ⟨c, y⟩ := p
  rw [mem_goodPairsF]
  simp only [Finset.mem_image, Finset.mem_filter]
  unfold coverageTuples
  constructor
  · rintro ⟨r, hr, hc, hy⟩
    unfold computeGoodYears at hr
    rw [List.mem_filter] at hr
    obtain ⟨hrc, hrb⟩ := hr
    have hgb := (goodYearB_iff hrc).mp hrb
    refine ⟨(r.city_id, y, r.days, r.coverage_days), ⟨?_, hgb⟩, by simp [hc]⟩
    rw [List.mem_toFinset, List.mem_filterMap]
    exact ⟨r, hrc, by rw [hy, Option.map_some']⟩
  · rintro ⟨q, ⟨hq, hgood⟩, hpq⟩
    rw [List.mem_toFinset, List.mem_filterMap] at hq
    obtain ⟨r, hrc, hmap⟩ := hq
    rw [Option.map_eq_some'] at hmap
    obtain ⟨a, ha, hfa⟩ := hmap
    subst hfa
    rw [Prod.mk.injEq] at hpq
    replace hpq : r.city_id = c ∧ a = y := hpq
    obtain ⟨h1, h2⟩ := hpq
    refine ⟨r, ?_, h1, by rw [ha, h2]⟩
    unfold computeGoodYears
    rw [List.mem_filter]
    exact ⟨hrc, (goodYearB_iff hrc).mpr hgood⟩

/-- The good pairs of the distributions entry point are its year-level tuples
with at least one day that meet the 0.7 threshold. -/
lemma goodPairs_dist (t : List DistAgg) :
    goodPairsF (distGoodYears t) =
      ((distTuples t).filter
        (fun q => 0 < q.2.2.1 ∧ 7 * q.2.2.1 ≤ 10 * q.2.2.2)).image
        (fun q => (q.1, q.2.1)) := by
  ext p
  obtain ⟨c, y⟩ := p
  rw [mem_goodPairsF]
  simp only [Finset.mem_image, Finset.mem_filter]
  unfold distTuples
  constructor
  · rintro ⟨r, hr, hc, hy⟩
    unfold distGoodYears at hr
    rw [List.mem_filter] at hr
    obtain ⟨hrc, hrb⟩ := hr
    unfold distCoverageRows at hrc
    rw [List.mem_filterMap] at hrc
    obtain ⟨s, hs, hmap⟩ := hrc
    rw [List.mem_filter, decide_eq_true_eq] at hs
    rw [Option.map_eq_some'] at hmap
    obtain ⟨a, ha, hrow⟩ := hmap
    subst hrow
    replace hy : some a = some y := hy
    injection hy with hy
    subst hy
    replace hc : s.city_id = c := hc
    have hgood : 0 < s.days ∧ 7 * s.days ≤ 10 * s.days_with_coverage_ge18 := by
      replace hrb : decide (minCoverageRate ≤
        (if 0 < s.days then (s.days_with_coverage_ge18 : ℚ) / (s.days : ℚ) else 0)) = true := hrb
      exact (rate_ge_iff s.days s.days_with_coverage_ge18).mp (of_decide_eq_true hrb)
    refine ⟨(s.city_id, a, s.days, s.days_with_coverage_ge18), ⟨?_, hgood⟩, by simp [hc]⟩
    rw [List.mem_toFinset, List.mem_filterMap]
    exact ⟨s, hs.1, by rw [ha, Option.map_some']⟩
  · rintro ⟨q, ⟨hq, hgood⟩, hpq⟩
    rw [List.mem_toFinset, List.mem_filterMap] at hq
    obtain ⟨s, hs, hmap⟩ := hq
    rw [Option.map_eq_some'] at hmap
    obtain ⟨a, ha, hfa⟩ := hmap
    subst hfa
    rw [Prod.mk.injEq] at hpq
    replace hpq : s.city_id = c ∧ a = y := hpq
    obtain ⟨h1, h2⟩ := hpq
    replace hgood : 0 < s.days ∧ 7 * s.days ≤ 10 * s.days_with_coverage_ge18 := hgood
    refine ⟨⟨s.city_id, s.city_name, some a, s.days, s.days_with_coverage_ge18,
      if 0 < s.days then (s.days_with_coverage_ge18 : ℚ) / (s.days : ℚ) else 0⟩,
      ?_, h1, by rw [h2]⟩
    unfold distGoodYears
    rw [List.mem_filter]
    constructor
    · unfold distCoverageRows
      rw [List.mem_filterMap]
      refine ⟨s, ?_, ?_⟩
      · rw [List.mem_filter, decide_eq_true_eq]
        exact ⟨hs, hgood.1⟩
      · rw [ha, Option.map_some']
    · unfold goodYearB
      rw [decide_eq_true_eq]
      exact (rate_ge_iff s.days s.days_with_coverage_ge18).mpr hgood

/-- C1: on semantically equivalent coverage inputs — a daily table and a
year-level distribution table carrying, per (city_id, year), the same `days`
and `days_with_coverage_ge18` counts (equal coverage-tuple sets) — the two
eligibility entry points return the same set of eligible city ids. -/
theorem C1_entry_points_agree (daily : List DailyRow) (t : List DistAgg)
    (h : distTuples t = coverageTuples daily) :
    eligibleCityIdsFromDaily daily = eligibleCityIdsFromDistributions t := by
  rw [idsFromDaily_eq, idsFromDistributions_eq]
  apply eligibleCityIds_congr
  rw [goodPairs_daily, goodPairs_dist, h]

/-- Four fully-covered one-day years of city 1, as a daily table. -/
def c1Daily : List DailyRow :=
  [⟨1, "Kyiv", some ⟨2020, 1⟩, 18⟩, ⟨1, "Kyiv", some ⟨2021, 1⟩, 18⟩,
   ⟨1, "Kyiv", some ⟨2022, 1⟩, 18⟩, ⟨1, "Kyiv", some ⟨2023, 1⟩, 18⟩]

/-- The same coverage content as year-level distribution rows. -/
def c1Dist : List DistAgg :=
  [⟨1, "Kyiv", "Kyivska", none, some 2020, 1, 0, 0, 0, 0, 0, 0, 1, "year"⟩,
   ⟨1, "Kyiv", "Kyivska", none, some 2021, 1, 0, 0, 0, 0, 0, 0, 1, "year"⟩,
   ⟨1, "Kyiv", "Kyivska", none, some 2022, 1, 0, 0, 0, 0, 0, 0, 1, "year"⟩,
   ⟨1, "Kyiv", "Kyivska", none, some 2023, 1, 0, 0, 0, 0, 0, 0, 1, "year"⟩]

/-- Witness for C1 at a concrete pair of equivalent inputs. -/
theorem C1_entry_points_agree_witness :
    eligibleCityIdsFromDaily c1Daily = eligibleCityIdsFromDistributions c1Dist :=
  C1_entry_points_agree c1Daily c1Dist (by with_unfolding_all decide)
